import Mathlib

/-!
Verification of the page-watcher program (`scripts/watch_page.py`) against its
specification.  The program is shallowly embedded: its pure decision logic is
translated directly, while external collaborators (the HTTP library, the HTML
parser, the SMTP session and the Twilio POST) are modelled as oracle inputs,
following the treatment in the specification of them as external collaborators with
fixed contracts.  Python exceptions are modelled with `Except`; Python `None`
and string truthiness are modelled with `Option String` and `truthy`.
-/

/-- Python `str.strip()` on the character list: leading and trailing
whitespace removed. -/
def stripChars (cs : List Char) : List Char :=
  ((cs.dropWhile Char.isWhitespace).reverse.dropWhile Char.isWhitespace).reverse

/-- Python `str.strip()`. -/
def pyStrip (s : String) : String := ⟨stripChars s.data⟩

/-- Python `str.lower()` (on the ASCII letters the program works with). -/
def pyLower (s : String) : String := ⟨s.data.map Char.toLower⟩

/-- Split a character list at every occurrence of `sep`, Python
`str.split(sep)` for a one-character separator: the empty input yields one
empty field. -/
def splitChar (sep : Char) : List Char → List (List Char)
  | [] => [[]]
  | c :: cs =>
    let r := splitChar sep cs
    if c == sep then [] :: r
    else
      match r with
      | [] => [[c]]
      | h :: t => (c :: h) :: t

/-- Python `s.split(",")`. -/
def pySplitComma (s : String) : List String :=
  (splitChar ',' s.data).map (fun l => ⟨l⟩)

/-- Truthiness of an environment-variable value, as Python sees it:
`os.getenv` yields `None` (absent) or a string, and an empty string is falsy. -/
def truthy : Option String → Bool
  | none => false
  | some s => !s.data.isEmpty

/-- Python `a or b` on two optional strings: the first operand when it is
truthy, otherwise the second. -/
def pyOr (a b : Option String) : Option String :=
  if truthy a = true then a else b

/-- Python `os.getenv(x) or None`: an absent or empty variable becomes `None`. -/
def pyOrNone (a : Option String) : Option String :=
  if truthy a = true then a else none

/-- Digit-string to number; `none` when the list is empty or holds a non-digit. -/
def digitsToNat (cs : List Char) : Option Nat :=
  if cs.isEmpty then none
  else if cs.all Char.isDigit then
    some (cs.foldl (fun acc c => acc * 10 + (c.toNat - 48)) 0)
  else none

/-- Python `int(s)` on ordinary decimal numerals: surrounding whitespace is
stripped, one optional sign is allowed, and the digits must be non-empty.
`none` models the `ValueError` that `int` raises on anything else. -/
def pyInt (s : String) : Option Int :=
  match stripChars s.data with
  | '+' :: rest => (digitsToNat rest).map Int.ofNat
  | '-' :: rest => (digitsToNat rest).map (fun n => -(n : Int))
  | cs => (digitsToNat cs).map Int.ofNat

/-- Does `needle` occur at the head of `hay`? -/
def listLead : List Char → List Char → Bool
  | [], _ => true
  | _ :: _, [] => false
  | a :: as, b :: bs => a == b && listLead as bs

/-- Does `needle` occur anywhere in `hay`? -/
def listSub (needle : List Char) : List Char → Bool
  | [] => listLead needle []
  | b :: bs => listLead needle (b :: bs) || listSub needle bs

/-- Python substring test `needle in hay` on strings. -/
def strContains (hay needle : String) : Bool :=
  listSub needle.data hay.data

/-- The persisted record of `state/page_state.json`: keys `last_hash`,
`last_match`, `last_checked`, each a string or `null`.  A JSON object missing
one of the keys reads back as `none` through `dict.get`. -/
structure WatchState where
  last_hash : Option String
  last_match : Option String
  last_checked : Option String
deriving DecidableEq

/-- The default empty state returned by `load_state` when nothing usable is
stored. -/
def WatchState.empty : WatchState := ⟨none, none, none⟩

/-- The classification produced by the change detector in `main`
(lines 298-322): first run, no change, or change. -/
inductive ChangeOutcome where
  | Baseline
  | Unchanged
  | Changed
deriving DecidableEq

/-- The change-detection and state-update step of `main` (lines 292-322),
parametric in the hash function `sha` (`hashlib.sha256(...).hexdigest()`):
`current_hash = sha256(signal)`; `state["last_checked"] = now`; if
`state.get("last_hash") is None` establish the baseline, else compare
`current_hash` with the stored hash, refreshing `last_match` either way and
overwriting `last_hash` only on change. -/
def detectStep (sha : String → String) (st : WatchState) (signal summary now : String) :
    ChangeOutcome × WatchState :=
  let current_hash := sha signal
  let st1 : WatchState := { st with last_checked := some now }
  match st1.last_hash with
  | none =>
    (ChangeOutcome.Baseline,
      { st1 with last_hash := some current_hash, last_match := some summary })
  | some prev =>
    if current_hash ≠ prev then
      (ChangeOutcome.Changed,
        { st1 with last_hash := some current_hash, last_match := some summary })
    else
      (ChangeOutcome.Unchanged, { st1 with last_match := some summary })

/-- Classification of the bytes found at `state/page_state.json`, by how the
Python standard library reacts to them in `load_state`:
* `absent` — `os.path.exists` is false;
* `undecodable` — the bytes are not valid UTF-8, so reading the text stream
  inside `json.load` raises `UnicodeDecodeError` (a `ValueError`, which is
  neither `json.JSONDecodeError` nor `IOError`, hence not caught);
* `unreadable` — opening or reading raises `IOError` (caught);
* `malformed` — the text is not valid JSON, `json.JSONDecodeError` (caught);
* `jsonOther` — valid JSON that is not an object (returned as-is);
* `jsonObj` — a valid JSON object, read as a `WatchState`. -/
inductive FileContents where
  | absent
  | undecodable
  | unreadable
  | malformed
  | jsonOther
  | jsonObj (st : WatchState)
deriving DecidableEq

/-- What `load_state` hands back to `main` when it does not raise: the state
object, or some non-object JSON value. -/
inductive LoadResult where
  | dict (st : WatchState)
  | nonDict
deriving DecidableEq

/-- Function `load_state` (lines 26-35): default state when the file is absent;
`json.load` otherwise, catching only `json.JSONDecodeError` and `IOError`
(returning the default with a warning); an undecodable file raises. -/
def load_state : FileContents → Except Unit LoadResult
  | .absent => .ok (.dict WatchState.empty)
  | .undecodable => .error ()
  | .unreadable => .ok (.dict WatchState.empty)
  | .malformed => .ok (.dict WatchState.empty)
  | .jsonOther => .ok .nonDict
  | .jsonObj st => .ok (.dict st)

/-- The environment variables read by the program. -/
structure MainEnv where
  WATCH_URL : Option String
  WATCH_SELECTOR : Option String
  WATCH_KEYWORDS : Option String
  FORCE_NOTIFY : Option String
  SMTP_HOST : Option String
  SMTP_PORT : Option String
  SMTP_USER : Option String
  SMTP_PASS : Option String
  EMAIL_TO : Option String
  EMAIL_FROM : Option String
  TWILIO_ACCOUNT_SID : Option String
  TWILIO_AUTH_TOKEN : Option String
  WHATSAPP_FROM : Option String
  WHATSAPP_TO : Option String

/-- An environment with every variable unset. -/
def envBase : MainEnv :=
  ⟨none, none, none, none, none, none, none, none, none, none, none, none, none, none⟩

/-- The guard of `send_email` (line 154): `all([host, user, pwd, to, from_addr])`
where `from_addr = os.getenv("EMAIL_FROM") or user` (line 152). -/
def emailGuard (env : MainEnv) : Bool :=
  truthy env.SMTP_HOST && truthy env.SMTP_USER && truthy env.SMTP_PASS &&
    truthy env.EMAIL_TO && truthy (pyOr env.EMAIL_FROM env.SMTP_USER)

/-- Function `send_email` (lines 140-174).  Here `smtpOk` stands for the outcome of the SMTP
session: the whole session sits in a `try` whose `except Exception` returns
`False`, so when the guard passes the call returns `smtpOk`.  The port is
computed as `int(os.getenv("SMTP_PORT", "587"))` *before* the `try`, so a
non-numeric port raises `ValueError` out of the function (modelled by
`.error ()`). -/
def send_email (env : MainEnv) (smtpOk : Bool) : Except Unit Bool :=
  match pyInt (env.SMTP_PORT.getD "587") with
  | none => .error ()
  | some _ =>
    if emailGuard env = true then .ok smtpOk else .ok false

/-- The guard of `send_whatsapp` (line 189): `all([sid, token, w_from, w_to])`. -/
def whatsGuard (env : MainEnv) : Bool :=
  truthy env.TWILIO_ACCOUNT_SID && truthy env.TWILIO_AUTH_TOKEN &&
    truthy env.WHATSAPP_FROM && truthy env.WHATSAPP_TO

/-- Function `send_whatsapp` (lines 177-213): guard, then a `try` whose
`except Exception` returns `False`; `twilioOk` stands for the outcome of the
POST.  Nothing escapes the function. -/
def send_whatsapp (env : MainEnv) (twilioOk : Bool) : Bool :=
  if whatsGuard env = true then twilioOk else false

/-- What `send_notifications` did on each channel: whether the guard of the channel
passed (the send was attempted) and whether the channel reported success. -/
structure NotifyResult where
  emailAttempted : Bool
  emailSent : Bool
  whatsAttempted : Bool
  whatsSent : Bool
deriving DecidableEq

/-- Function `send_notifications` (lines 216-242): calls `send_email` then
`send_whatsapp` unconditionally and in that order, with no `try` of its own, so
an exception escaping `send_email` aborts the function before the WhatsApp
attempt. -/
def send_notifications (env : MainEnv) (smtpOk twilioOk : Bool) :
    Except Unit NotifyResult :=
  match send_email env smtpOk with
  | .error e => .error e
  | .ok emailSent =>
    .ok ⟨emailGuard env, emailSent, whatsGuard env, send_whatsapp env twilioOk⟩

/-- The `metadata` dictionary built by `extract_signal` (one shape per
extraction method) and by the forced-test path of `main`. -/
inductive ExtractMeta where
  | selectorData (selector : String) (found : Bool) (length : Nat)
  | keywordData (total_keywords : Nat) (matched_keywords : List String) (page_length : Nat)
  | testData
deriving DecidableEq

/-- The lookup `metadata.get("matched_keywords", [])` as used by `send_notifications`. -/
def ExtractMeta.matchedKws : ExtractMeta → List String
  | .keywordData _ m _ => m
  | .selectorData _ _ _ => []
  | .testData => ["TEST"]

/-- The `found` entry of the selector metadata (`False` stands in for the
missing key on the other shapes). -/
def ExtractMeta.foundFlag : ExtractMeta → Bool
  | .selectorData _ f _ => f
  | _ => false

/-- Function `extract_signal` (lines 85-137), with BeautifulSoup modelled as two
collaborator functions: `docText html` is `soup.get_text(" ", strip=True)` for
the whole document, and `selOne sel html` is the whitespace-collapsed visible
text of the first element matching `sel` (`none` when no element matches).
Selector branch when `selector` is truthy: signal is the element text (empty
when no match), `found` is `bool(text)`.  Keyword branch otherwise: signal is
the entire page text; each keyword is stripped and, when non-empty, matched
case-insensitively as a substring of the page text. -/
def extract_signal (docText : String → String) (selOne : String → String → Option String)
    (html : String) (selector : Option String) (keywords : Option (List String)) :
    String × String × ExtractMeta :=
  if truthy selector = true then
    let sel := selector.getD ""
    let text :=
      match selOne sel html with
      | some t => t
      | none => ""
    let summary :=
      if text.data.isEmpty then
        "Selector " ++ sel ++ " not found"
      else
        "Selector " ++ sel ++ " matched: " ++ String.mk (text.data.take 150) ++ "..."
    (text, summary, ExtractMeta.selectorData sel (!text.data.isEmpty) text.length)
  else
    let page_text := docText html
    let page_text_lower := pyLower page_text
    let matched :=
      match keywords with
      | none => []
      | some kws =>
        kws.filterMap (fun kw =>
          let kw_clean := pyStrip kw
          if (!kw_clean.data.isEmpty) && strContains page_text_lower (pyLower kw_clean) then
            some kw_clean
          else none)
    let total := match keywords with | none => 0 | some kws => kws.length
    let summary :=
      "Keywords matched: " ++ toString matched ++ " | Page length: " ++
        toString page_text.length ++ " chars | Keywords monitored: " ++ toString total
    (page_text, summary, ExtractMeta.keywordData total matched page_text.length)

/-- The outcome of one `requests.get` attempt inside `fetch`: a 2xx body, a
`requests.exceptions.RequestException` (non-2xx status via `raise_for_status`,
connection failure, timeout), or an exception of another class
(`KeyboardInterrupt`, or anything else) that the `except` clause does not
catch. -/
inductive AttemptOutcome where
  | ok (body : String)
  | reqFail
  | interrupt
  | fatal
deriving DecidableEq

/-- How `fetch` terminates when it does not return a body. -/
inductive FetchError where
  | reqExc
  | interrupted
  | other
deriving DecidableEq

/-- Observable behaviour of one `fetch` call: its result, how many attempts
were started, and the argument of each `time.sleep` in order. -/
structure FetchTrace where
  result : Except FetchError String
  attemptsMade : Nat
  sleeps : List Nat

/-- The retry loop of `fetch` (lines 68-82), one step per remaining attempt:
`fuel` is `retries - attempt` (so `fuel = 1` is the final attempt, on which a
`RequestException` is re-raised instead of retried), `i` is the 0-based
`attempt` index.  A non-final `RequestException` sleeps `2 ** attempt` seconds
and retries; exceptions of other classes propagate at once; falling out of the
loop returns the empty string (only reachable with `retries = 0`). -/
def fetchGo (oracle : Nat → AttemptOutcome) : Nat → Nat → FetchTrace
  | 0, i => ⟨.ok "", i, []⟩
  | 1, i =>
    match oracle i with
    | .ok body => ⟨.ok body, i + 1, []⟩
    | .reqFail => ⟨.error .reqExc, i + 1, []⟩
    | .interrupt => ⟨.error .interrupted, i + 1, []⟩
    | .fatal => ⟨.error .other, i + 1, []⟩
  | fuel + 2, i =>
    match oracle i with
    | .ok body => ⟨.ok body, i + 1, []⟩
    | .reqFail =>
      let t := fetchGo oracle (fuel + 1) (i + 1)
      ⟨t.result, t.attemptsMade, 2 ^ i :: t.sleeps⟩
    | .interrupt => ⟨.error .interrupted, i + 1, []⟩
    | .fatal => ⟨.error .other, i + 1, []⟩

/-- The call `fetch(url, retries)` (lines 50-82): run the loop from attempt 0. -/
def fetchRun (oracle : Nat → AttemptOutcome) (retries : Nat) : FetchTrace :=
  fetchGo oracle retries 0

/-- Line 256 of `main`:
`keywords = [k.strip() for k in keywords_raw.split(",") if k.strip()] or None`. -/
def parseKeywords (raw : String) : Option (List String) :=
  let ks := ((pySplitComma raw).map pyStrip).filter (fun s => !s.data.isEmpty)
  if ks.isEmpty then none else some ks

/-- The inputs of one invocation of `main` that come from outside the state
file: the environment, the network oracle for the three fetch attempts, the
BeautifulSoup collaborators, the hash function, the clock reading and the
outcomes of the two notification transports. -/
structure RunInputs where
  env : MainEnv
  oracle : Nat → AttemptOutcome
  docText : String → String
  selOne : String → String → Option String
  sha : String → String
  now : String
  smtpOk : Bool
  twilioOk : Bool

/-- Observable result of one invocation of `main`: the process exit status,
the state file afterwards, and whether `save_state` ran. -/
structure RunResult where
  exitCode : Nat
  file : FileContents
  saved : Bool
deriving DecidableEq

/-- Function `main` (lines 245-338) for a non-`retries=0` run.  Control flow follows the
source: missing `WATCH_URL` exits 2; neither selector nor keywords exits 2
(`SystemExit` passes through the `try`); `FORCE_NOTIFY=true` only notifies
(exit 1 if `send_notifications` raises, else 0, and no state is touched);
otherwise load state (an undecodable file raises `UnicodeDecodeError`, caught
only by `except Exception`, exit 1), fetch (exhausted retries exit 0,
`KeyboardInterrupt` exit 130, other exceptions exit 1, state untouched),
extract, then — only now touching the loaded object — classify and save; on the
`Changed` branch `send_notifications` runs before the save, so an exception
there exits 1 with no save.  Non-object JSON state raises `TypeError` at
`state["last_checked"] = ...` after the fetch, exit 1. -/
def runMain (inp : RunInputs) (file : FileContents) : RunResult :=
  let env := inp.env
  if truthy env.WATCH_URL = false then ⟨2, file, false⟩
  else
    let selector := pyOrNone env.WATCH_SELECTOR
    let keywords := parseKeywords (env.WATCH_KEYWORDS.getD "")
    if selector = none ∧ keywords = none then ⟨2, file, false⟩
    else if pyLower (env.FORCE_NOTIFY.getD "") = "true" then
      match send_notifications env inp.smtpOk inp.twilioOk with
      | .error _ => ⟨1, file, false⟩
      | .ok _ => ⟨0, file, false⟩
    else
      match load_state file with
      | .error _ => ⟨1, file, false⟩
      | .ok loaded =>
        match (fetchRun inp.oracle 3).result with
        | .error .reqExc => ⟨0, file, false⟩
        | .error .interrupted => ⟨130, file, false⟩
        | .error .other => ⟨1, file, false⟩
        | .ok html =>
          let ext := extract_signal inp.docText inp.selOne html selector keywords
          match loaded with
          | .nonDict => ⟨1, file, false⟩
          | .dict st =>
            let step := detectStep inp.sha st ext.1 ext.2.1 inp.now
            match step.1 with
            | .Baseline => ⟨0, .jsonObj step.2, true⟩
            | .Unchanged => ⟨0, .jsonObj step.2, true⟩
            | .Changed =>
              match send_notifications env inp.smtpOk inp.twilioOk with
              | .error _ => ⟨1, file, false⟩
              | .ok _ => ⟨0, .jsonObj step.2, true⟩

/-- One run of the program applied to the state file, together with a flag
accumulating whether any run so far has completed a save. -/
def traceStep (acc : FileContents × Bool) (inp : RunInputs) : FileContents × Bool :=
  let r := runMain inp acc.1
  (r.file, acc.2 || r.saved)

/-- The state file after a sequence of runs starting from no file at all,
paired with whether some run in the sequence completed a save. -/
def runTrace (runs : List RunInputs) : FileContents × Bool :=
  runs.foldl traceStep (.absent, false)

/-- Does the state file hold a JSON object with a non-null `last_hash`? -/
def hashPresent : FileContents → Bool
  | .jsonObj st => st.last_hash.isSome
  | _ => false

/-! ### Helper lemmas -/

/-- Every branch of the change detector stores a non-null `last_hash`. -/
theorem detectStep_hash_isSome (sha : String → String) (st : WatchState)
    (signal summary now : String) :
    ((detectStep sha st signal summary now).2.last_hash).isSome = true := by
  cases h : st.last_hash with
  | none => simp [detectStep, h]
  | some prev =>
    by_cases heq : sha signal = prev
    · simp [detectStep, h, heq]
    · simp [detectStep, h, heq]

/-- Each invocation of `main` either leaves the state file untouched (and did
not save), or saves a JSON object whose `last_hash` is non-null. -/
theorem runMain_frame (inp : RunInputs) (file : FileContents) :
    ((runMain inp file).saved = false ∧ (runMain inp file).file = file) ∨
    ((runMain inp file).saved = true ∧ hashPresent (runMain inp file).file = true) := by
  unfold runMain
  dsimp only
  split_ifs with h1 h2 h3
  · exact Or.inl ⟨rfl, rfl⟩
  · exact Or.inl ⟨rfl, rfl⟩
  · rcases hn : send_notifications inp.env inp.smtpOk inp.twilioOk with e | r <;>
      simp [hn]
  · rcases hl : load_state file with e | lr
    · simp [hl]
    · simp only [hl]
      rcases hf : (fetchRun inp.oracle 3).result with e | html
      · cases e <;> simp [hf]
      · simp only [hf]
        rcases lr with st | _
        · repeat' split
          all_goals simp_all [hashPresent, detectStep_hash_isSome]
        · exact Or.inl ⟨rfl, rfl⟩

/-- The save flag of a trace is faithful: the final file holds a non-null
`last_hash` exactly when the flag says some run saved. -/
theorem trace_invariant (runs : List RunInputs) (acc : FileContents × Bool)
    (h : hashPresent acc.1 = acc.2) :
    hashPresent (runs.foldl traceStep acc).1 = (runs.foldl traceStep acc).2 := by
  induction runs generalizing acc with
  | nil => exact h
  | cons r rs ih =>
    apply ih
    rcases runMain_frame r acc.1 with ⟨hs, hf⟩ | ⟨hs, hf⟩
    · simp [traceStep, hs, hf, h]
    · simp [traceStep, hs, hf]

/-! ### Claim theorems -/

/-- Claim C1: for every previously stored fingerprint (possibly absent) and
every current signal, the detector returns `Baseline` and stores the fingerprint of the signal when no fingerprint was stored; returns `Unchanged` and keeps the
stored fingerprint when the fingerprint of the signal equals it; and returns
`Changed` and replaces the stored fingerprint otherwise — refreshing the
stored summary (and check time) in every case. -/
theorem C1_change_detector (sha : String → String) (st : WatchState)
    (S summary now : String) :
    (detectStep sha st S summary now).1 =
      (match st.last_hash with
       | none => ChangeOutcome.Baseline
       | some F => if sha S = F then ChangeOutcome.Unchanged else ChangeOutcome.Changed) ∧
    (detectStep sha st S summary now).2.last_hash =
      (match st.last_hash with
       | none => some (sha S)
       | some F => if sha S = F then some F else some (sha S)) ∧
    (detectStep sha st S summary now).2.last_match = some summary ∧
    (detectStep sha st S summary now).2.last_checked = some now := by
  cases h : st.last_hash with
  | none => simp [detectStep, h]
  | some F =>
    by_cases heq : sha S = F
    · simp [detectStep, h, heq]
    · simp [detectStep, h, heq]

/-- Claim C2: starting from no state file, after any sequence of runs the
persisted `last_hash` is non-null exactly when some run has completed the
save (a successful extraction run — forced-test and failed runs never save);
and appending one more run can only `or` the save flag, never clear it, so a
non-null `last_hash` persists across every later run. -/
theorem C2_hash_invariant (runs : List RunInputs) :
    hashPresent (runTrace runs).1 = (runTrace runs).2 ∧
    ∀ inp : RunInputs, (runTrace (runs ++ [inp])).2 =
      ((runTrace runs).2 || (runMain inp (runTrace runs).1).saved) := by
  constructor
  · exact trace_invariant runs (.absent, false) rfl
  · intro inp
    simp [runTrace, List.foldl_append, traceStep]

/-- Boolean reading of the Python fallback `EMAIL_FROM or user`. -/
theorem truthy_pyOr (a b : Option String) :
    truthy (pyOr a b) = (truthy a || truthy b) := by
  cases h : truthy a <;> simp [pyOr, h]

/-- An email configuration with host, user, password and recipient set but no
explicit sender address. -/
def envEmailNoFrom : MainEnv :=
  { envBase with
      SMTP_HOST := some "smtp.example.com", SMTP_USER := some "watcher",
      SMTP_PASS := some "hunter2", EMAIL_TO := some "ops@example.com" }

/-- Claim C3 counterexample: with host, user, password and recipient
configured but the sender (`EMAIL_FROM`) missing, `send_email` still attempts
the send — the guard passes because the sender defaults to the SMTP user — and
reports success, contradicting the claim that a missing sender means the
channel is reported unconfigured and false is returned without an attempt. -/
theorem C3_sender_fallback_counterexample :
    envEmailNoFrom.EMAIL_FROM = none ∧
    emailGuard envEmailNoFrom = true ∧
    send_email envEmailNoFrom true = .ok true :=
  ⟨rfl, rfl, rfl⟩

/-- Claim C3 amended: the effective sender is `EMAIL_FROM or SMTP_USER`, so —
provided the SMTP port string parses as an integer — the channel attempts
delivery exactly when host, user, password and recipient are all configured
(the effective sender is then automatically available), and the call returns
the transport outcome when attempted and false with no attempt otherwise. -/
theorem C3_email_only_if (env : MainEnv) (smtpOk : Bool)
    (hport : pyInt (env.SMTP_PORT.getD "587") ≠ none) :
    emailGuard env = (truthy env.SMTP_HOST && truthy env.SMTP_USER &&
      truthy env.SMTP_PASS && truthy env.EMAIL_TO) ∧
    send_email env smtpOk = .ok (emailGuard env && smtpOk) := by
  have hg : emailGuard env = (truthy env.SMTP_HOST && truthy env.SMTP_USER &&
      truthy env.SMTP_PASS && truthy env.EMAIL_TO) := by
    unfold emailGuard
    rw [truthy_pyOr]
    cases truthy env.SMTP_HOST <;> cases truthy env.SMTP_USER <;>
      cases truthy env.SMTP_PASS <;> cases truthy env.EMAIL_TO <;>
      cases truthy env.EMAIL_FROM <;> rfl
  refine ⟨hg, ?_⟩
  unfold send_email
  rcases hp : pyInt (env.SMTP_PORT.getD "587") with _ | n
  · exact absurd hp hport
  · cases hge : emailGuard env <;> simp [hge]

/-- Witness for the amended C3, at the concrete four-variable configuration. -/
theorem C3_email_only_if_witness :
    emailGuard envEmailNoFrom = (truthy envEmailNoFrom.SMTP_HOST &&
      truthy envEmailNoFrom.SMTP_USER && truthy envEmailNoFrom.SMTP_PASS &&
      truthy envEmailNoFrom.EMAIL_TO) ∧
    send_email envEmailNoFrom false = .ok (emailGuard envEmailNoFrom && false) :=
  C3_email_only_if envEmailNoFrom false (by decide)

/-- Both notification channels fully configured, with a non-numeric SMTP
port. -/
def envPortBad : MainEnv :=
  { envBase with
      SMTP_HOST := some "smtp.example.com", SMTP_PORT := some "abc",
      SMTP_USER := some "watcher", SMTP_PASS := some "hunter2",
      EMAIL_TO := some "ops@example.com", EMAIL_FROM := some "bot@example.com",
      TWILIO_ACCOUNT_SID := some "AC123", TWILIO_AUTH_TOKEN := some "tok",
      WHATSAPP_FROM := some "whatsapp:+14155238886", WHATSAPP_TO := some "whatsapp:+15550001111" }

/-- The same configuration with a numeric port. -/
def envPortOk : MainEnv := { envPortBad with SMTP_PORT := some "587" }

/-- Claim C4 (code-bug evidence): with both channels fully configured and
`SMTP_PORT=abc`, `int(os.getenv("SMTP_PORT", "587"))` raises `ValueError`
before the `try` of `send_email`; the exception escapes `send_notifications`
and the WhatsApp channel — which on its own would succeed — is never attempted.
With a parseable port the channels are independent as claimed: an email
failure still attempts WhatsApp and vice versa, and with no channel configured
the function returns normally (warning only). -/
theorem C4_port_crash :
    send_notifications envPortBad true true = .error () ∧
    send_whatsapp envPortBad true = true ∧
    send_notifications envPortOk false true = .ok ⟨true, false, true, true⟩ ∧
    send_notifications envPortOk true false = .ok ⟨true, true, true, false⟩ ∧
    send_notifications envBase true true = .ok ⟨false, false, false, false⟩ :=
  ⟨rfl, rfl, rfl, rfl, rfl⟩

/-- Claim C5: with the default `retries = 3` and attempts that either succeed
or raise a request exception (non-2xx status, connection failure, timeout):
the fetcher starts at most three attempts, whose exact number is fixed by the
first success; it sleeps exactly `2 ^ k` seconds after the k-th failed attempt
(1s then 2s); every attempt before the last one started failed and was
retried; and the result is the body of the final attempt, a final-attempt failure
being re-raised to the caller as the network error. -/
theorem C5_fetch_retry (oracle : Nat → AttemptOutcome)
    (hreq : ∀ i, oracle i = .reqFail ∨ ∃ b, oracle i = .ok b) :
    (fetchRun oracle 3).attemptsMade =
      (if oracle 0 ≠ .reqFail then 1 else if oracle 1 ≠ .reqFail then 2 else 3) ∧
    (fetchRun oracle 3).sleeps =
      (List.range ((fetchRun oracle 3).attemptsMade - 1)).map (fun k => 2 ^ k) ∧
    ((List.range ((fetchRun oracle 3).attemptsMade - 1)).all
        (fun i => oracle i == AttemptOutcome.reqFail)) = true ∧
    (fetchRun oracle 3).result =
      (match oracle ((fetchRun oracle 3).attemptsMade - 1) with
       | .ok b => .ok b
       | _ => .error .reqExc) := by
  rcases hreq 0 with h0 | ⟨b0, h0⟩
  · rcases hreq 1 with h1 | ⟨b1, h1⟩
    · rcases hreq 2 with h2 | ⟨b2, h2⟩
      · simp [fetchRun, fetchGo, h0, h1, h2, List.range_succ]
      · simp [fetchRun, fetchGo, h0, h1, h2, List.range_succ]
    · simp [fetchRun, fetchGo, h0, h1, List.range_succ]
  · simp [fetchRun, fetchGo, h0]

/-- Witness for C5 at an always-failing network: three attempts, sleeps of one
then two seconds, and the request exception surfaced to the caller. -/
theorem C5_fetch_retry_witness :
    (fetchRun (fun _ => AttemptOutcome.reqFail) 3).attemptsMade = 3 ∧
    (fetchRun (fun _ => AttemptOutcome.reqFail) 3).sleeps = [1, 2] ∧
    (fetchRun (fun _ => AttemptOutcome.reqFail) 3).result = .error .reqExc := by
  obtain ⟨h1, h2, h3, h4⟩ :=
    C5_fetch_retry (fun _ => AttemptOutcome.reqFail) (fun i => Or.inl rfl)
  refine ⟨?_, ?_, ?_⟩
  · rw [h1]; rfl
  · rw [h2, h1]; rfl
  · rw [h4]

/-- A valid keyword configuration pointing at an example page. -/
def envValid : MainEnv :=
  { envBase with WATCH_URL := some "http://example.com", WATCH_KEYWORDS := some "sale" }

/-- Concrete run inputs: the given environment and network oracle, identity
collaborators for the page text and the hash, and a fixed clock. -/
def mkInputs (env : MainEnv) (oracle : Nat → AttemptOutcome) : RunInputs :=
  ⟨env, oracle, fun h => h, fun _ _ => none, fun s => s,
    "2026-01-01T00:00:00+00:00", true, true⟩

/-- A run against a healthy network returning a fixed page. -/
def inpPlain : RunInputs := mkInputs envValid (fun _ => AttemptOutcome.ok "hello world")

/-- Claim C6: in every run with a valid, non-forced configuration whose state
file loads without raising, three consecutive request failures make the
process exit 0 with the state file exactly as before — no save happens on the
network-failure path. -/
theorem C6_network_failure (inp : RunInputs) (file : FileContents) (lr : LoadResult)
    (hurl : truthy inp.env.WATCH_URL = true)
    (hcfg : ¬(pyOrNone inp.env.WATCH_SELECTOR = none ∧
              parseKeywords (inp.env.WATCH_KEYWORDS.getD "") = none))
    (hforce : pyLower (inp.env.FORCE_NOTIFY.getD "") ≠ "true")
    (hload : load_state file = .ok lr)
    (hfail : ∀ i, i < 3 → inp.oracle i = .reqFail) :
    runMain inp file = ⟨0, file, false⟩ := by
  have h0 := hfail 0 (by omega)
  have h1 := hfail 1 (by omega)
  have h2 := hfail 2 (by omega)
  have hfetch : (fetchRun inp.oracle 3).result = .error .reqExc := by
    simp [fetchRun, fetchGo, h0, h1, h2]
  unfold runMain
  dsimp only
  simp [hurl, hcfg, hforce, hload, hfetch]

/-- Witness for C6: keyword configuration, no state file, network down. -/
theorem C6_network_failure_witness :
    runMain (mkInputs envValid (fun _ => AttemptOutcome.reqFail)) FileContents.absent =
      ⟨0, FileContents.absent, false⟩ :=
  C6_network_failure (mkInputs envValid (fun _ => AttemptOutcome.reqFail))
    FileContents.absent (LoadResult.dict WatchState.empty)
    (by decide) (by decide) (by decide) rfl (fun i _ => rfl)

/-- Claim C8 counterexample: a state file whose bytes do not decode as UTF-8
is corrupt, yet `load_state` raises (`UnicodeDecodeError` is caught by neither
`except` clause) instead of returning the default state, and the run dies with
exit status 1. -/
theorem C8_undecodable_counterexample :
    load_state FileContents.undecodable = .error () ∧
    (runMain inpPlain FileContents.undecodable).exitCode = 1 :=
  ⟨rfl, rfl⟩

/-- Claim C8 amended: `load_state` returns the default empty state, warning
only, when the file is absent, holds invalid JSON, or raises an I/O error —
but a file whose bytes are not valid UTF-8 raises out of it (fatal to the run,
exit 1), and valid JSON that is not an object is returned as-is (and later
crashes the run).  The caught cases are indeed non-fatal: the run proceeds
normally. -/
theorem C8_load_default :
    load_state FileContents.absent = .ok (.dict WatchState.empty) ∧
    load_state FileContents.malformed = .ok (.dict WatchState.empty) ∧
    load_state FileContents.unreadable = .ok (.dict WatchState.empty) ∧
    load_state FileContents.undecodable = .error () ∧
    load_state FileContents.jsonOther = .ok .nonDict ∧
    (∀ st, load_state (FileContents.jsonObj st) = .ok (.dict st)) ∧
    (runMain inpPlain FileContents.malformed).exitCode = 0 ∧
    (runMain inpPlain FileContents.jsonOther).exitCode = 1 :=
  ⟨rfl, rfl, rfl, rfl, rfl, fun _ => rfl, rfl, rfl⟩

/-- Claim C9 (code-bug evidence): the exit statuses at concrete runs.  Missing
URL and missing selector-and-keywords exit 2; network failure after the
retries, a completed forced test, and a completed baseline run exit 0;
interruption during the fetch exits 130; an unexpected exception exits 1.  But
the forced-test case with `SMTP_PORT=abc` exits 1 — the `ValueError` raised by
`int()` inside `send_email` escapes — where the claim requires the forced-test
case to exit 0. -/
theorem C9_exit_codes :
    (runMain (mkInputs envBase (fun _ => AttemptOutcome.ok "x"))
        FileContents.absent).exitCode = 2 ∧
    (runMain (mkInputs { envBase with WATCH_URL := some "http://example.com" }
        (fun _ => AttemptOutcome.ok "x")) FileContents.absent).exitCode = 2 ∧
    (runMain (mkInputs { envValid with FORCE_NOTIFY := some "true", SMTP_PORT := some "abc" }
        (fun _ => AttemptOutcome.ok "x")) FileContents.absent).exitCode = 1 ∧
    (runMain (mkInputs { envValid with FORCE_NOTIFY := some "true" }
        (fun _ => AttemptOutcome.ok "x")) FileContents.absent).exitCode = 0 ∧
    (runMain (mkInputs envValid (fun _ => AttemptOutcome.reqFail))
        FileContents.absent).exitCode = 0 ∧
    (runMain (mkInputs envValid (fun _ => AttemptOutcome.interrupt))
        FileContents.absent).exitCode = 130 ∧
    (runMain (mkInputs envValid (fun _ => AttemptOutcome.fatal))
        FileContents.absent).exitCode = 1 ∧
    (runMain inpPlain FileContents.absent).exitCode = 0 :=
  ⟨rfl, rfl, rfl, rfl, rfl, rfl, rfl, rfl⟩

/-- A string is non-empty exactly when its character list is. -/
theorem bnot_isEmpty_iff (s : String) : (!s.data.isEmpty) = true ↔ s ≠ "" := by
  cases s with
  | mk l =>
    cases l with
    | nil => exact ⟨fun h => Bool.noConfusion h, fun h => absurd rfl h⟩
    | cons c cs =>
      exact ⟨fun _ heq => List.noConfusion (congrArg String.data heq), fun _ => rfl⟩

/-- Claim C7: under the keyword strategy (selector not configured), the signal
is the entire extracted page text, and an already-stripped non-empty keyword
`k` of the configured list appears in the matched keywords of the metadata exactly
when its lowercase form is a substring of the lowercase page text.  (The
configured keywords handed over by `main` are stripped and non-empty by
construction of the `WATCH_KEYWORDS` parsing.) -/
theorem C7_keyword_match (docText : String → String)
    (selOne : String → String → Option String) (html : String)
    (selector : Option String) (kws : List String) (k : String)
    (hsel : truthy selector = false) (hk : k ∈ kws) (htrim : pyStrip k = k)
    (hne : k ≠ "") :
    (extract_signal docText selOne html selector (some kws)).1 = docText html ∧
    (k ∈ ((extract_signal docText selOne html selector (some kws)).2.2).matchedKws ↔
      strContains (pyLower (docText html)) (pyLower k) = true) := by
  have hguard : ¬ truthy selector = true := by simp [hsel]
  refine ⟨by simp [extract_signal, hguard], ?_⟩
  have hred : ((extract_signal docText selOne html selector (some kws)).2.2).matchedKws =
      kws.filterMap (fun kw =>
        if (!(pyStrip kw).data.isEmpty &&
            strContains (pyLower (docText html)) (pyLower (pyStrip kw))) = true then
          some (pyStrip kw)
        else none) := by
    unfold extract_signal
    rw [if_neg hguard]
    rfl
  rw [hred, List.mem_filterMap]
  constructor
  · rintro ⟨a, ha, hfa⟩
    split at hfa
    · rename_i hcond
      rw [Bool.and_eq_true] at hcond
      have h2 := hcond.2
      rwa [Option.some.inj hfa] at h2
    · exact Option.noConfusion hfa
  · intro hcond
    refine ⟨k, hk, ?_⟩
    dsimp only
    rw [htrim, if_pos (by rw [Bool.and_eq_true]
                          exact ⟨(bnot_isEmpty_iff k).mpr hne, hcond⟩)]

/-- Witness for C7, the example of the specification: keyword `Sale` against
the page text `huge sale today`. -/
theorem C7_keyword_match_witness :
    (extract_signal (fun h => h) (fun _ _ => none) "huge sale today" none
        (some ["Sale"])).1 = "huge sale today" ∧
    ("Sale" ∈ ((extract_signal (fun h => h) (fun _ _ => none) "huge sale today" none
        (some ["Sale"])).2.2).matchedKws ↔
      strContains (pyLower "huge sale today") (pyLower "Sale") = true) :=
  C7_keyword_match (fun h => h) (fun _ _ => none) "huge sale today" none
    ["Sale"] "Sale" rfl (by decide) (by decide) (by decide)

/-- Claim C10: under the selector strategy, the metadata `found` flag is
true exactly when the extracted signal text is non-empty; a selector matching
an element with empty visible text yields the very same result as no match at
all, and both return normally with an empty signal. -/
theorem C10_selector_found (docText : String → String)
    (selOne : String → String → Option String) (html : String)
    (selector : Option String) (keywords : Option (List String))
    (hsel : truthy selector = true) :
    (((extract_signal docText selOne html selector keywords).2.2).foundFlag = true ↔
      (extract_signal docText selOne html selector keywords).1 ≠ "") ∧
    extract_signal docText (fun _ _ => some "") html selector keywords =
      extract_signal docText (fun _ _ => none) html selector keywords ∧
    (extract_signal docText (fun _ _ => some "") html selector keywords).1 = "" := by
  refine ⟨?_, ?_, ?_⟩
  · simp only [extract_signal, hsel, if_true, ExtractMeta.foundFlag]
    exact bnot_isEmpty_iff _
  · simp [extract_signal, hsel]
  · simp [extract_signal, hsel]

/-- Witness for C10 at a concrete selector whose element has empty text. -/
theorem C10_selector_found_witness :
    ((((extract_signal (fun h => h) (fun _ _ => some "") "<div></div>" (some "div")
          none).2.2).foundFlag = true ↔
      (extract_signal (fun h => h) (fun _ _ => some "") "<div></div>" (some "div")
          none).1 ≠ "") ∧
    extract_signal (fun h => h) (fun _ _ => some "") "<div></div>" (some "div") none =
      extract_signal (fun h => h) (fun _ _ => none) "<div></div>" (some "div") none ∧
    (extract_signal (fun h => h) (fun _ _ => some "") "<div></div>" (some "div")
        none).1 = "") :=
  C10_selector_found (fun h => h) (fun _ _ => some "") "<div></div>" (some "div")
    none rfl
